import Mathlib

/-!
Verification of the scheduled alerting and reminder engine of the
ring-camera-server repository.

The development shallowly embeds the state-bearing parts of the source:

* `src/services/config.ts` (the durable config store: `updateConfig`,
  `loadConfigFromDisk`, `addRequestHistory`, `updateAlertRule`, ...);
* the alerts service (`AlertsService.handleMotionEvent`,
  `AlertsService.evaluateRule`, `AlertsService.triggerAlert`);
* the reminder scheduler inside `src/services/telegram.ts`
  (`startReminder` tick, `stopReminder`, `cleanupReminder`,
  `loadReminders`, `saveReminders`).

Timestamps are milliseconds-since-epoch modelled as `Int` (JavaScript
number subtraction may go negative); hours of day are `Nat`.
External I/O (disk reads, JSON parsing, snapshot capture, vision
queries, message dispatch) is modelled by explicit outcome parameters:
the embedded functions receive the outcome of each external call and
compute the resulting state exactly as the source does.
-/

namespace RingCamera

/-! ## Data model (src/services/config.ts interfaces) -/

/-- One entry of the persisted request history (`RequestHistoryEntry`). -/
structure RequestHistoryEntry where
  id : String
  userId : Int
  username : Option String
  firstName : Option String
  lastName : Option String
  timestamp : Int
  action : String
  details : String
  camera : Option String
  success : Bool
  errorMessage : Option String
deriving DecidableEq, Repr

/-- The `activeHours` field of an alert rule: hour-of-day bounds, 0-23. -/
structure ActiveHours where
  start : Nat
  stop : Nat
deriving DecidableEq, Repr

/-- The optional `aiCriteria` field of an alert rule. -/
structure AiCriteria where
  enabled : Bool
  prompt : String
deriving DecidableEq, Repr

/-- An alert rule (`AlertRule` in config.ts).  `lastTriggered` is an
optional timestamp (`undefined` when the rule has never fired). -/
structure AlertRule where
  id : String
  cameraName : String
  enabled : Bool
  idleThresholdMinutes : Nat
  activeHours : ActiveHours
  cooldownMinutes : Nat
  aiCriteria : Option AiCriteria
  lastTriggered : Option Int
deriving DecidableEq, Repr

/-- A pending-authorization user record in the config. -/
structure PendingUser where
  userId : Int
  username : Option String
  firstName : Option String
  lastName : Option String
  requestTime : Int
deriving DecidableEq, Repr

/-- A telegram reminder (`Reminder` in telegram.ts and the
`telegramReminders` entries of the config). -/
structure Reminder where
  id : String
  chatId : Int
  interval : Nat
  cameraName : Option String
  lastRun : Int
  isActive : Bool
deriving DecidableEq, Repr

/-- The persisted application config (`AppConfig`), every field
optional exactly as in the TypeScript interface. -/
structure AppConfig where
  ringRefreshToken : Option String := none
  openaiApiKey : Option String := none
  cameraName : Option String := none
  telegramReminders : Option (List Reminder) := none
  telegramAuthorizedUsers : Option (List Int) := none
  telegramPendingUsers : Option (List PendingUser) := none
  requestHistory : Option (List RequestHistoryEntry) := none
  alertRules : Option (List AlertRule) := none
deriving DecidableEq, Repr

/-! ## Config store operations (src/services/config.ts) -/

/-- Embedding of `loadConfigFromDisk`.  The disk read
(`fs.readFileSync`) and the JSON parse are external calls whose
outcomes are passed in: `readFile` is `.error` when the file is
missing/unreadable; `parseJson` returns `.error` when `JSON.parse`
throws and `.ok none` when it yields a falsy value (the source's
`parsed || \x7b\x7d` fallback).  Any failure yields the empty config. -/
def loadConfigFromDisk (readFile : Except String String)
    (parseJson : String → Except String (Option AppConfig)) : AppConfig :=
  match readFile with
  | .error _ => {}
  | .ok raw =>
    match parseJson raw with
    | .error _ => {}
    | .ok none => {}
    | .ok (some cfg) => cfg

/-- Embedding of `updateConfig(partial)`: a read-modify-write on the
current config.  A field of the update that is `undefined` (here
`none`) is ignored; `ringRefreshToken` and `openaiApiKey` are also
ignored when they are the empty string; every other defined field
overwrites.  The result is both the new in-memory config and the
content written (atomically) to disk. -/
def updateConfig (prev upd : AppConfig) : AppConfig :=
  { ringRefreshToken :=
      match upd.ringRefreshToken with
      | some v => if v == "" then prev.ringRefreshToken else some v
      | none => prev.ringRefreshToken
    openaiApiKey :=
      match upd.openaiApiKey with
      | some v => if v == "" then prev.openaiApiKey else some v
      | none => prev.openaiApiKey
    cameraName :=
      match upd.cameraName with
      | some v => some v
      | none => prev.cameraName
    telegramReminders :=
      match upd.telegramReminders with
      | some v => some v
      | none => prev.telegramReminders
    telegramAuthorizedUsers :=
      match upd.telegramAuthorizedUsers with
      | some v => some v
      | none => prev.telegramAuthorizedUsers
    telegramPendingUsers :=
      match upd.telegramPendingUsers with
      | some v => some v
      | none => prev.telegramPendingUsers
    requestHistory :=
      match upd.requestHistory with
      | some v => some v
      | none => prev.requestHistory
    alertRules :=
      match upd.alertRules with
      | some v => some v
      | none => prev.alertRules }

/-- Embedding of `addRequestHistory(entry)`.  The generated id and the
`Date.now()` timestamp are passed in (`newId`, `now`); the new entry is
prepended and the history truncated to the last 1000 entries before
being written back through `updateConfig`. -/
def addRequestHistory (cfg : AppConfig) (entry : RequestHistoryEntry)
    (newId : String) (now : Int) : AppConfig :=
  let historyEntry : RequestHistoryEntry := { entry with id := newId, timestamp := now }
  let currentHistory := cfg.requestHistory.getD []
  let updatedHistory := (historyEntry :: currentHistory).take 1000
  updateConfig cfg { requestHistory := some updatedHistory }

/-- Embedding of `updateAlertRule(id, updates)`: replace the first rule
whose id matches by the updated rule; if no rule matches, the list is
unchanged.  The field-spread `\x7b...rules[index], ...updates\x7d` is
modelled by the update function `f`. -/
def updateAlertRule (rules : List AlertRule) (ruleId : String)
    (f : AlertRule → AlertRule) : List AlertRule :=
  match rules with
  | [] => []
  | r :: rest =>
    if r.id == ruleId then f r :: rest
    else r :: updateAlertRule rest ruleId f

/-- Embedding of `getAlertRulesByCamera`. -/
def getAlertRulesByCamera (rules : List AlertRule) (cameraName : String) : List AlertRule :=
  rules.filter (fun r => r.cameraName == cameraName)

/-! ## Alerts service (AlertsService in the alerts module) -/

/-- Per-camera motion state (`MotionState`):  `lastMotion` is a
millisecond timestamp, `isActive` whether a motion window is open. -/
structure MotionState where
  cameraName : String
  lastMotion : Int
  isActive : Bool
deriving DecidableEq, Repr

/-- Lookup in an association list, mirroring `Map.get`: the value of
the first entry carrying the key. -/
def mapGet {α : Type} (m : List (String × α)) (k : String) : Option α :=
  match m with
  | [] => none
  | p :: rest => if p.1 == k then some p.2 else mapGet rest k

/-- The keyword list of `AlertsService.evaluateRule`'s AI gate. -/
def positiveKeywords : List String :=
  ["yes", "true", "detected", "present", "awake", "active"]

/-- Whether `needle` starts the character list `hay`. -/
def leadsWith : List Char → List Char → Bool
  | [], _ => true
  | _ :: _, [] => false
  | a :: as, b :: bs => a == b && leadsWith as bs

/-- Whether `needle` occurs contiguously inside `hay`
(JavaScript `String.includes`). -/
def occursIn (needle : List Char) : List Char → Bool
  | [] => leadsWith needle []
  | c :: cs => leadsWith needle (c :: cs) || occursIn needle cs

/-- The AI-response positivity test of `evaluateRule`: some positive
keyword occurs in the lowercased response. -/
def isPositiveAiResult (response : String) : Bool :=
  positiveKeywords.any (fun k => occursIn k.data response.toLower.data)

/-- The cooldown check of `evaluateRule` (return false when
`rule.lastTriggered && (now - rule.lastTriggered) < cooldownMinutes *
60 * 1000`).  JavaScript truthiness makes a `lastTriggered` of 0 skip
the check. -/
def cooldownOk (rule : AlertRule) (now : Int) : Bool :=
  match rule.lastTriggered with
  | none => true
  | some t => !(t != 0 && decide (now - t < (rule.cooldownMinutes : Int) * 60 * 1000))

/-- The active-hours check of `evaluateRule` (return false when
`currentHour < rule.activeHours.start || currentHour >
rule.activeHours.end`). -/
def activeHoursOk (rule : AlertRule) (currentHour : Nat) : Bool :=
  !(decide (currentHour < rule.activeHours.start) ||
    decide (currentHour > rule.activeHours.stop))

/-- The idle-threshold check of `evaluateRule`: when a motion state is
recorded, fail if the idle time is below the threshold; when no motion
state is recorded the check is skipped. -/
def idleOk (rule : AlertRule) (now : Int) (motionState : Option MotionState) : Bool :=
  match motionState with
  | none => true
  | some st => !decide (now - st.lastMotion < (rule.idleThresholdMinutes : Int) * 60 * 1000)

/-- The AI-criteria gate of `evaluateRule`.  `aiResult` is the outcome
of the external snapshot + vision calls: `none` when either threw
(the source returns false from its catch), otherwise the response
text. -/
def aiOk (rule : AlertRule) (aiResult : Option String) : Bool :=
  match rule.aiCriteria with
  | none => true
  | some c =>
    if c.enabled && c.prompt != "" then
      match aiResult with
      | none => false
      | some response => isPositiveAiResult response
    else true

/-- Embedding of `AlertsService.evaluateRule(rule, cameraName)`: the
four early-return checks in source order (cooldown, active hours, idle
threshold, AI criteria).  `now` is `Date.now()`, `currentHour` is
`new Date().getHours()`, `motionState` is
`this.motionStates.get(cameraName)`. -/
def evaluateRule (rule : AlertRule) (now : Int) (currentHour : Nat)
    (motionState : Option MotionState) (aiResult : Option String) : Bool :=
  cooldownOk rule now && activeHoursOk rule currentHour &&
    idleOk rule now motionState && aiOk rule aiResult

/-- The state-changing part of `AlertsService.triggerAlert`: persist
`lastTriggered := now` through `updateAlertRule`; the subsequent
snapshot and notification sends do not change engine state (their
failures are caught). -/
def triggerAlert (rules : List AlertRule) (rule : AlertRule) (now : Int) : List AlertRule :=
  updateAlertRule rules rule.id (fun r => { r with lastTriggered := some now })

/-- State of the alerts service: the per-camera motion-state map and
the alert rules of the config store. -/
structure AlertState where
  motionStates : List (String × MotionState)
  rules : List AlertRule
deriving DecidableEq, Repr

/-- The rule loop of `AlertsService.handleMotionEvent`: iterate over
the snapshot of rules fetched for the camera, skip disabled rules, and
for each firing rule write `lastTriggered` back to the store.  Returns
the final store and the ids of the rules that fired, in order. -/
def processRules (now : Int) (currentHour : Nat) (motionState : Option MotionState)
    (ai : String → Option String) :
    List AlertRule → List AlertRule → List String → List AlertRule × List String
  | [], store, fired => (store, fired)
  | r :: rest, store, fired =>
    if !r.enabled then processRules now currentHour motionState ai rest store fired
    else if evaluateRule r now currentHour motionState (ai r.id) then
      processRules now currentHour motionState ai rest
        (triggerAlert store r now) (fired ++ [r.id])
    else processRules now currentHour motionState ai rest store fired

/-- Embedding of `AlertsService.handleMotionEvent(cameraName, ding)`:
update the camera's motion state (when one is recorded), fetch the
rules for the camera, and run the rule loop.  `ai` gives, per rule id,
the outcome of that rule's AI-gate external calls. -/
def handleMotionEvent (s : AlertState) (cameraName : String) (now : Int)
    (currentHour : Nat) (ai : String → Option String) : AlertState × List String :=
  let motionStates' := s.motionStates.map (fun p =>
    if p.1 == cameraName then (p.1, { p.2 with lastMotion := now, isActive := true }) else p)
  let rulesForCamera := getAlertRulesByCamera s.rules cameraName
  let res := processRules now currentHour (mapGet motionStates' cameraName) ai
    rulesForCamera s.rules []
  ({ motionStates := motionStates', rules := res.1 }, res.2)

/-- One motion event as delivered to `handleMotionEvent`: the camera,
the wall-clock instant (`Date.now()` and `getHours()` at handling
time), and the outcomes of the per-rule AI-gate calls. -/
structure MotionEvent where
  camera : String
  now : Int
  hour : Nat
  ai : String → Option String

/-- Run a sequence of motion events through the alerts service,
collecting every fired rule id in order. -/
def runEvents (s : AlertState) : List MotionEvent → AlertState × List String
  | [] => (s, [])
  | e :: rest =>
    let res := handleMotionEvent s e.camera e.now e.hour e.ai
    let res' := runEvents res.1 rest
    (res'.1, res.2 ++ res'.2)

/-! ## Reminder scheduler (TelegramService in src/services/telegram.ts) -/

/-- Embedding of `Map.set` on an association list: replace the value
at an existing key in place, otherwise append. -/
def mapSet {α : Type} (m : List (String × α)) (k : String) (v : α) : List (String × α) :=
  if m.any (fun p => p.1 == k) then
    m.map (fun p => if p.1 == k then (k, v) else p)
  else m ++ [(k, v)]

/-- Embedding of `Map.delete` on an association list. -/
def mapDelete {α : Type} (m : List (String × α)) (k : String) : List (String × α) :=
  m.filter (fun p => p.1 != k)

/-- Insert an id into a set of armed-timer ids (`Map.set` on
`reminderIntervals`, the timer handle itself not being modelled). -/
def timerAdd (l : List String) (x : String) : List String :=
  if l.contains x then l else l ++ [x]

/-- State of the `TelegramService` scheduler: the in-memory reminder
map (`this.reminders`), the set of reminder ids with an armed timer
(`this.reminderIntervals`), and the durable config. -/
structure TelegramState where
  reminders : List (String × Reminder)
  intervals : List String
  config : AppConfig
deriving DecidableEq, Repr

/-- Embedding of `TelegramService.saveReminders()`: write the reminder
map's values into the config via `updateConfig` (the source passes the
whole current config spread with `telegramReminders` replaced). -/
def saveReminders (s : TelegramState) : TelegramState :=
  { s with config :=
      (updateConfig s.config
        { s.config with telegramReminders := some (s.reminders.map (fun p => p.2)) }) }

/-- The timer-arming effect of `TelegramService.startReminder`:
register the reminder id in the interval table. -/
def startReminder (s : TelegramState) (r : Reminder) : TelegramState :=
  { s with intervals := timerAdd s.intervals r.id }

/-- The `forEach` body of `TelegramService.loadReminders()`: an active
stored reminder is put in the reminder map and its timer armed; an
inactive one is skipped. -/
def loadStep (st : TelegramState) (r : Reminder) : TelegramState :=
  if r.isActive then
    startReminder { st with reminders := mapSet st.reminders r.id r } r
  else st

/-- Embedding of `TelegramService.loadReminders()`: run `loadStep`
over every stored reminder. -/
def loadReminders (s : TelegramState) : TelegramState :=
  match s.config.telegramReminders with
  | none => s
  | some rems => rems.foldl loadStep s

/-- The scheduler state at process startup with durable config `c`:
both in-memory tables empty (the constructor then calls
`loadReminders`). -/
def initialTelegramState (c : AppConfig) : TelegramState :=
  { reminders := [], intervals := [], config := c }

/-- Embedding of one tick of the `setInterval` callback installed by
`TelegramService.startReminder`.  `r` is the reminder object captured
by the closure, `now` the tick's `Date.now()`, and `ok` whether the
snapshot capture and photo dispatch both succeeded.  An inactive
reminder clears its own timer; a successful tick sets `lastRun := now`
on the map entry and persists via `saveReminders`; a failed tick sends
an error notice and leaves all state unchanged. -/
def reminderTick (s : TelegramState) (r : Reminder) (now : Int) (ok : Bool) : TelegramState :=
  if !r.isActive then
    { s with intervals := s.intervals.filter (fun i => i != r.id) }
  else if ok then
    let r' := { r with lastRun := now }
    saveReminders
      { s with reminders := s.reminders.map (fun p => if p.1 == r.id then (p.1, r') else p) }
  else s

/-- Embedding of `TelegramService.stopReminder(chatId, reminderId)`:
if the reminder is absent or owned by another chat, reply and change
nothing; otherwise deactivate it, remove it from the map, clear its
timer, and persist via `saveReminders`. -/
def stopReminder (s : TelegramState) (chatId : Int) (reminderId : String) : TelegramState :=
  match mapGet s.reminders reminderId with
  | none => s
  | some r =>
    if r.chatId != chatId then s
    else
      saveReminders
        { s with
          reminders := mapDelete s.reminders reminderId
          intervals := s.intervals.filter (fun i => i != reminderId) }

/-- Embedding of `TelegramService.cleanupReminder(reminderId)`: clear
the timer if armed; then, if the reminder is in the map, deactivate
and remove it and persist. -/
def cleanupReminder (s : TelegramState) (reminderId : String) : TelegramState :=
  let s1 := { s with intervals := s.intervals.filter (fun i => i != reminderId) }
  match mapGet s1.reminders reminderId with
  | none => s1
  | some _ =>
    saveReminders { s1 with reminders := mapDelete s1.reminders reminderId }

/-! ## Concrete fixtures used in counterexamples and witnesses -/

/-- An alert rule with wrap-around active hours 22-6. -/
def wrapRule : AlertRule :=
  { id := "r1", cameraName := "cam", enabled := true, idleThresholdMinutes := 0,
    activeHours := { start := 22, stop := 6 }, cooldownMinutes := 0,
    aiCriteria := none, lastTriggered := none }

/-- The scenario rule of the spec: 10 min idle threshold, 60 min
cooldown, active hours 0-23, AI criteria disabled. -/
def scenarioRule : AlertRule :=
  { id := "r1", cameraName := "cam", enabled := true, idleThresholdMinutes := 10,
    activeHours := { start := 0, stop := 23 }, cooldownMinutes := 60,
    aiCriteria := none, lastTriggered := none }

/-- Alerts state with the scenario rule and no recorded motion state. -/
def noMotionState : AlertState := { motionStates := [], rules := [scenarioRule] }

/-- Alerts state with the scenario rule and the camera tracked since
time 0 (`initialize` records every camera at startup). -/
def scenarioState : AlertState :=
  { motionStates := [("cam", { cameraName := "cam", lastMotion := 0, isActive := false })],
    rules := [scenarioRule] }

/-- The scenario rule with a zero idle threshold. -/
def zeroIdleRule : AlertRule := { scenarioRule with idleThresholdMinutes := 0 }

/-- Alerts state for the cooldown counterexample. -/
def zeroIdleState : AlertState :=
  { motionStates := [("cam", { cameraName := "cam", lastMotion := 0, isActive := false })],
    rules := [zeroIdleRule] }

/-- Alerts state for the C4 witness: the scenario rule last fired at
timestamp 5. -/
def cooldownWitnessState : AlertState :=
  { motionStates := []
    rules := [{ scenarioRule with lastTriggered := some 5 }] }

/-- A motion event on the tracked camera at millisecond `t`, local
hour 12, with no AI calls performed. -/
def camEventAt (t : Int) : MotionEvent :=
  { camera := "cam", now := t, hour := 12, ai := fun _ => none }

/-- A concrete active reminder. -/
def remFixture : Reminder :=
  { id := "rem1", chatId := 7, interval := 30, cameraName := some "cam",
    lastRun := 0, isActive := true }

/-- A concrete scheduler state holding `remFixture` with an armed
timer and the matching persisted config. -/
def telegramFixture : TelegramState :=
  { reminders := [("rem1", remFixture)], intervals := ["rem1"],
    config := { telegramReminders := some [remFixture] } }

/-! ## Claim C8: load on missing or corrupt file -/

/-- C8: loading the schedule store when the durable file is missing,
or when its contents fail to parse, returns the empty config (no
reminders, no alert rules) rather than an error. -/
theorem loadConfig_missing_or_corrupt_is_empty
    (err : String) (parseJson : String → Except String (Option AppConfig))
    (raw perr : String) :
    loadConfigFromDisk (.error err) parseJson = ({} : AppConfig) ∧
    (parseJson raw = .error perr → loadConfigFromDisk (.ok raw) parseJson = ({} : AppConfig)) ∧
    ({} : AppConfig).telegramReminders = none ∧ ({} : AppConfig).alertRules = none := by
  refine ⟨rfl, ?_, rfl, rfl⟩
  intro h
  simp [loadConfigFromDisk, h]

/-- Witness for C8 at a concrete missing file and a concretely
unparseable content. -/
theorem loadConfig_missing_or_corrupt_is_empty_witness :
    loadConfigFromDisk (.ok "not json") (fun _ => .error "bad") = ({} : AppConfig) :=
  (loadConfig_missing_or_corrupt_is_empty "e" (fun _ => .error "bad") "not json" "bad").2.1 rfl

/-! ## Claim C9: updateConfig field semantics -/

/-- C9: `updateConfig` silently ignores an empty-string
`ringRefreshToken` or `openaiApiKey` (the stored values survive),
while an empty `cameraName` does overwrite; and every field that the
partial update leaves `undefined` is unchanged. -/
theorem updateConfig_partial_semantics (prev upd : AppConfig) :
    (upd.ringRefreshToken = some "" →
      (updateConfig prev upd).ringRefreshToken = prev.ringRefreshToken) ∧
    (upd.openaiApiKey = some "" →
      (updateConfig prev upd).openaiApiKey = prev.openaiApiKey) ∧
    (upd.cameraName = some "" → (updateConfig prev upd).cameraName = some "") ∧
    (upd.ringRefreshToken = none →
      (updateConfig prev upd).ringRefreshToken = prev.ringRefreshToken) ∧
    (upd.openaiApiKey = none → (updateConfig prev upd).openaiApiKey = prev.openaiApiKey) ∧
    (upd.cameraName = none → (updateConfig prev upd).cameraName = prev.cameraName) ∧
    (upd.telegramReminders = none →
      (updateConfig prev upd).telegramReminders = prev.telegramReminders) ∧
    (upd.telegramAuthorizedUsers = none →
      (updateConfig prev upd).telegramAuthorizedUsers = prev.telegramAuthorizedUsers) ∧
    (upd.telegramPendingUsers = none →
      (updateConfig prev upd).telegramPendingUsers = prev.telegramPendingUsers) ∧
    (upd.requestHistory = none →
      (updateConfig prev upd).requestHistory = prev.requestHistory) ∧
    (upd.alertRules = none → (updateConfig prev upd).alertRules = prev.alertRules) := by
  refine ⟨?_, ?_, ?_, ?_, ?_, ?_, ?_, ?_, ?_, ?_, ?_⟩ <;>
    · intro h
      simp [updateConfig, h]

/-- Witness for C9: a stored token and key survive an update carrying
empty strings for both, while the empty camera name overwrites. -/
theorem updateConfig_partial_semantics_witness :
    (updateConfig
        { ringRefreshToken := some "tok", openaiApiKey := some "key",
          cameraName := some "front" }
        { ringRefreshToken := some "", openaiApiKey := some "",
          cameraName := some "" }).ringRefreshToken = some "tok" ∧
    (updateConfig
        { ringRefreshToken := some "tok", openaiApiKey := some "key",
          cameraName := some "front" }
        { ringRefreshToken := some "", openaiApiKey := some "",
          cameraName := some "" }).openaiApiKey = some "key" ∧
    (updateConfig
        { ringRefreshToken := some "tok", openaiApiKey := some "key",
          cameraName := some "front" }
        { ringRefreshToken := some "", openaiApiKey := some "",
          cameraName := some "" }).cameraName = some "" := by
  have h := updateConfig_partial_semantics
    { ringRefreshToken := some "tok", openaiApiKey := some "key", cameraName := some "front" }
    { ringRefreshToken := some "", openaiApiKey := some "", cameraName := some "" }
  exact ⟨h.1 rfl, h.2.1 rfl, h.2.2.1 rfl⟩

/-! ## Claim C10: request history bound -/

/-- C10: after any `addRequestHistory` call the stored history has at
most 1000 entries, is exactly the new entry consed onto the previous
history truncated to 1000, and has the new entry first. -/
theorem addRequestHistory_bounded (cfg : AppConfig) (entry : RequestHistoryEntry)
    (newId : String) (now : Int) :
    ((addRequestHistory cfg entry newId now).requestHistory.getD []).length ≤ 1000 ∧
    (addRequestHistory cfg entry newId now).requestHistory =
      some ((({ entry with id := newId, timestamp := now } : RequestHistoryEntry) ::
        cfg.requestHistory.getD []).take 1000) ∧
    ((addRequestHistory cfg entry newId now).requestHistory.getD []).head? =
      some { entry with id := newId, timestamp := now } := by
  refine ⟨?_, rfl, ?_⟩
  · simp [addRequestHistory, updateConfig, List.length_take]
  · have : (({ entry with id := newId, timestamp := now } : RequestHistoryEntry) ::
        cfg.requestHistory.getD []).take 1000 =
        ({ entry with id := newId, timestamp := now } : RequestHistoryEntry) ::
          (cfg.requestHistory.getD []).take 999 := by
      rw [show (1000 : Nat) = 999 + 1 from rfl, List.take_succ_cons]
    simp [addRequestHistory, updateConfig, this]

/-! ## Claim C1: active hours never wrap past midnight -/

/-- C1 counterexample: for `activeHours = \x7bstart: 22, end: 6\x7d` the
claim says hours 23 and 2 pass the active-hours check; in the code the
check fails at both (it also fails at 12, but there claim and code
agree). -/
theorem activeHours_wrap_cex :
    activeHoursOk wrapRule 23 = false ∧ activeHoursOk wrapRule 2 = false := by
  exact ⟨rfl, rfl⟩

/-- C1 amended: the active-hours check of `evaluateRule` passes
exactly when `start ≤ hour ≤ end`, with no wrap-around handling; for
`\x7bstart: 22, end: 6\x7d` the check fails at hours 23, 2 and 12 alike. -/
theorem activeHours_check_is_closed_interval :
    (∀ (r : AlertRule) (hour : Nat), activeHoursOk r hour =
      (decide (r.activeHours.start ≤ hour) && decide (hour ≤ r.activeHours.stop))) ∧
    activeHoursOk wrapRule 23 = false ∧ activeHoursOk wrapRule 2 = false ∧
    activeHoursOk wrapRule 12 = false := by
  refine ⟨?_, rfl, rfl, rfl⟩
  intro r hour
  simp only [activeHoursOk, Bool.not_or, ← decide_not, Nat.not_lt, gt_iff_lt]

/-! ## Claim C2: unknown motion state and the idle check -/

/-- C2 counterexample: a motion event on a camera with no recorded
motion state fires the scenario rule (idle threshold 10 min), though
the claim says an unknown idle duration must fail the idle check and
never fire. -/
theorem unknown_idle_still_fires_cex :
    (handleMotionEvent noMotionState "cam" 0 12 (fun _ => none)).2 = ["r1"] := by
  rfl

/-- C2 amended: when no motion state is recorded for the camera,
`evaluateRule` skips the idle-threshold check entirely (it behaves as
the conjunction of the remaining three checks), so the rule fires
whenever those pass. -/
theorem unknown_idle_skips_check (rule : AlertRule) (now : Int) (hour : Nat)
    (aiResult : Option String) :
    evaluateRule rule now hour none aiResult =
      (cooldownOk rule now && activeHoursOk rule hour && aiOk rule aiResult) := by
  simp [evaluateRule, idleOk]

/-! ## Claim C5: reminder ticks and lastRun -/

/-- Looking up a key after replacing its value in place yields the new
value, provided the key was present. -/
theorem mapGet_map_replace {α : Type} (m : List (String × α)) (k : String) (v' : α)
    (h : (mapGet m k).isSome) :
    mapGet (m.map (fun p => if p.1 == k then (p.1, v') else p)) k = some v' := by
  induction m with
  | nil => simp [mapGet] at h
  | cons q rest ih =>
    by_cases hq : q.1 = k
    · simp [mapGet, hq]
    · have hq' : (q.1 == k) = false := by simpa using hq
      simp only [mapGet, hq', if_false] at h
      simpa [mapGet, hq'] using ih h

/-- C5 counterexample: a failed tick (snapshot capture or dispatch
error) leaves the whole scheduler state untouched: `lastRun` is not
set to the tick time and nothing is persisted, though the claim says
`lastRun` is updated and persisted on success or failure. -/
theorem failed_tick_leaves_state_cex :
    reminderTick telegramFixture remFixture 5 false = telegramFixture ∧
    mapGet telegramFixture.reminders "rem1" = some remFixture ∧
    remFixture.lastRun = 0 ∧ (0 : Int) ≠ 5 := by
  refine ⟨rfl, rfl, rfl, by decide⟩

/-- C5 amended: a failed tick leaves the state unchanged (only an
error notice is sent); a successful tick sets the reminder's `lastRun`
to the tick time and persists the reminder map through the schedule
store. -/
theorem tick_updates_lastRun_only_on_success (s : TelegramState) (r : Reminder) (now : Int)
    (hact : r.isActive = true) :
    reminderTick s r now false = s ∧
    (mapGet s.reminders r.id = some r →
      mapGet (reminderTick s r now true).reminders r.id = some { r with lastRun := now } ∧
      (reminderTick s r now true).config.telegramReminders =
        some ((reminderTick s r now true).reminders.map (fun p => p.2))) := by
  constructor
  · simp [reminderTick, hact]
  · intro hmem
    constructor
    · simp only [reminderTick, hact, Bool.not_true, Bool.false_eq_true, if_false, if_true,
        saveReminders]
      exact mapGet_map_replace s.reminders r.id _ (by rw [hmem]; rfl)
    · simp [reminderTick, hact, saveReminders, updateConfig]

/-- Witness for C5's amended theorem on the concrete fixture. -/
theorem tick_updates_lastRun_only_on_success_witness :
    reminderTick telegramFixture remFixture 9 false = telegramFixture ∧
    mapGet (reminderTick telegramFixture remFixture 9 true).reminders "rem1" =
      some { remFixture with lastRun := 9 } := by
  have h := tick_updates_lastRun_only_on_success telegramFixture remFixture 9 rfl
  exact ⟨h.1, (h.2 rfl).1⟩

/-! ## Claim C6: stopping a reminder is idempotent -/

/-- saveReminders changes only the config field. -/
theorem saveReminders_reminders (s : TelegramState) :
    (saveReminders s).reminders = s.reminders := rfl

/-- saveReminders leaves the timer table alone. -/
theorem saveReminders_intervals (s : TelegramState) :
    (saveReminders s).intervals = s.intervals := rfl

/-- After deleting a key, looking it up yields nothing. -/
theorem mapGet_mapDelete {α : Type} (m : List (String × α)) (k : String) :
    mapGet (mapDelete m k) k = none := by
  induction m with
  | nil => rfl
  | cons q rest ih =>
    by_cases hq : q.1 = k
    · have h1 : (q.1 != k) = false := by simp [hq]
      simpa [mapDelete, List.filter_cons, h1] using ih
    · have h1 : (q.1 != k) = true := by simpa using hq
      have h2 : (q.1 == k) = false := by simpa using hq
      simpa [mapDelete, List.filter_cons, h1, mapGet, h2] using ih

/-- Filtering a list of ids by the same key twice equals filtering
once. -/
theorem filter_ne_idem (l : List String) (x : String) :
    (l.filter (fun i => i != x)).filter (fun i => i != x) = l.filter (fun i => i != x) := by
  induction l with
  | nil => rfl
  | cons a rest ih =>
    by_cases ha : (a != x) = true
    · simp [List.filter_cons, ha, ih]
    · have ha' : (a != x) = false := by simpa using ha
      simp [List.filter_cons, ha', ih]

/-- C6: stopping a reminder is idempotent — a second `stopReminder`
for the same id (same chat) leaves exactly the state of the first
(reminder map, timer table and persisted config alike), and likewise
for the internal `cleanupReminder`; the second call is an ordinary
no-op, not an error. -/
theorem stopReminder_idempotent (s : TelegramState) (chatId : Int) (reminderId : String) :
    stopReminder (stopReminder s chatId reminderId) chatId reminderId =
      stopReminder s chatId reminderId ∧
    cleanupReminder (cleanupReminder s reminderId) reminderId =
      cleanupReminder s reminderId := by
  constructor
  · cases h : mapGet s.reminders reminderId with
    | none => simp [stopReminder, h]
    | some r =>
      by_cases hc : (r.chatId != chatId) = true
      · simp [stopReminder, h, hc]
      · have hc' : (r.chatId != chatId) = false := by simpa using hc
        have h1 : stopReminder s chatId reminderId =
            saveReminders
              { s with reminders := mapDelete s.reminders reminderId
                       intervals := s.intervals.filter (fun i => i != reminderId) } := by
          simp [stopReminder, h, hc']
        rw [h1]
        have h2 : mapGet (saveReminders
            { s with reminders := mapDelete s.reminders reminderId
                     intervals := s.intervals.filter (fun i => i != reminderId) }).reminders
            reminderId = none := by
          rw [saveReminders_reminders]
          exact mapGet_mapDelete s.reminders reminderId
        simp [stopReminder, h2]
  · cases h : mapGet s.reminders reminderId with
    | none =>
      have h1 : cleanupReminder s reminderId =
          { s with intervals := s.intervals.filter (fun i => i != reminderId) } := by
        simp [cleanupReminder, h]
      rw [h1]
      simp [cleanupReminder, h, filter_ne_idem]
    | some r =>
      have h1 : cleanupReminder s reminderId =
          saveReminders
            { s with intervals := s.intervals.filter (fun i => i != reminderId)
                     reminders := mapDelete s.reminders reminderId } := by
        simp [cleanupReminder, h]
      rw [h1]
      simp [cleanupReminder, saveReminders, filter_ne_idem, mapGet_mapDelete]

/-! ## Claim C7: startup re-arms exactly the active stored reminders -/

/-- Membership in the timer table after a `Map.set`. -/
theorem timerAdd_mem (l : List String) (x y : String) :
    y ∈ timerAdd l x ↔ y ∈ l ∨ y = x := by
  unfold timerAdd
  by_cases h : l.contains x
  · have hx : x ∈ l := by simpa using h
    simp only [if_pos h]
    constructor
    · exact Or.inl
    · rintro (hy | rfl)
      · exact hy
      · exact hx
  · have hx : x ∉ l := by simpa using h
    simp [hx, List.mem_append]

/-- Folding `loadStep` arms a timer for an id exactly when one was
already armed or some processed reminder has that id and is active. -/
theorem loadStep_foldl_intervals (rems : List Reminder) (st : TelegramState) (x : String) :
    x ∈ (rems.foldl loadStep st).intervals ↔
      x ∈ st.intervals ∨ ∃ r ∈ rems, r.id = x ∧ r.isActive = true := by
  induction rems generalizing st with
  | nil => simp
  | cons r rest ih =>
    rw [List.foldl_cons, ih]
    by_cases hr : r.isActive
    · simp only [loadStep, hr, if_pos, startReminder, timerAdd_mem, List.exists_mem_cons_iff, hr]
      tauto
    · have hr' : r.isActive = false := by simpa using hr
      simp only [loadStep, hr', Bool.false_eq_true, if_false, List.exists_mem_cons_iff]
      tauto

/-- C7: at startup, `loadReminders` arms a repeating timer for an id
exactly when the durable config stores a reminder with that id and
`isActive` true; inactive stored reminders get no timer. -/
theorem loadReminders_arms_exactly_active (c : AppConfig) (x : String) :
    x ∈ (loadReminders (initialTelegramState c)).intervals ↔
      ∃ r ∈ c.telegramReminders.getD [], r.id = x ∧ r.isActive = true := by
  cases h : c.telegramReminders with
  | none =>
    simp [loadReminders, initialTelegramState, h]
  | some rems =>
    have h1 : loadReminders (initialTelegramState c) =
        rems.foldl loadStep (initialTelegramState c) := by
      simp [loadReminders, initialTelegramState, h]
    rw [h1, loadStep_foldl_intervals]
    simp [initialTelegramState]

/-! ## Claim C3: the idle-threshold scenario -/

/-- C3: evaluating the spec scenario against the code.  With the rule
`\x7bidleThresholdMinutes: 10, cooldownMinutes: 60, activeHours: \x7b0,23\x7d,
aiCriteria: disabled\x7d` and motion events at T = 0, 15 min and 20 min on
a camera tracked since startup, no event fires at all: in particular
the second event does not fire although the claim requires it to,
because `handleMotionEvent` sets `lastMotion` to the event time before
`evaluateRule` runs, so the computed idle time is 0 < 10 min. -/
theorem scenario_no_motion_event_fires :
    (runEvents scenarioState [camEventAt 0, camEventAt 900000, camEventAt 1200000]).2 = [] := by
  rfl

/-! ## Claim C4: cooldown between firings -/

/-- A rule whose cooldown is running (nonzero `lastTriggered` within
the window) never passes `evaluateRule`. -/
theorem evaluateRule_blocked {rule : AlertRule} {T : Int} {M : Nat}
    (hlt : rule.lastTriggered = some T) (hT : T ≠ 0) (hM : rule.cooldownMinutes = M)
    {now : Int} (hnow : now < T + (M : Int) * 60 * 1000)
    (hour : Nat) (ms : Option MotionState) (ai : Option String) :
    evaluateRule rule now hour ms ai = false := by
  have h1 : (T != 0) = true := by simpa using hT
  have h2 : now - T < (M : Int) * 60 * 1000 := by omega
  simp [evaluateRule, cooldownOk, hlt, hM, h1, h2]

/-- Updating via `updateAlertRule` at an id other than `R` preserves the
cooldown facts about every rule with id `R`, provided the update
function keeps ids. -/
theorem updateAlertRule_keeps {R : String} {T : Int} {M : Nat} {rid : String}
    (hne : rid ≠ R) {f : AlertRule → AlertRule} (hf : ∀ x, (f x).id = x.id) :
    ∀ (store : List AlertRule),
      (∀ r ∈ store, r.id = R → r.lastTriggered = some T ∧ r.cooldownMinutes = M) →
      ∀ r ∈ updateAlertRule store rid f, r.id = R →
        r.lastTriggered = some T ∧ r.cooldownMinutes = M := by
  intro store
  induction store with
  | nil =>
    intro _ r hr
    simp [updateAlertRule] at hr
  | cons q rest ih =>
    intro h r hr hrR
    simp only [updateAlertRule] at hr
    by_cases hq : (q.id == rid) = true
    · rw [if_pos hq] at hr
      rcases List.mem_cons.mp hr with rfl | hmem
      · exfalso
        apply hne
        have hq' : q.id = rid := by simpa using hq
        have h3 : (f q).id = q.id := hf q
        rw [h3] at hrR
        rw [← hq']
        exact hrR
      · exact h r (List.mem_cons_of_mem _ hmem) hrR
    · rw [if_neg hq] at hr
      rcases List.mem_cons.mp hr with rfl | hmem
      · exact h r (List.mem_cons_self _ _) hrR
      · exact ih (fun x hx => h x (List.mem_cons_of_mem _ hx)) r hmem hrR

/-- Through the rule loop of one motion event, a rule id whose
cooldown is running is never appended to the fired list and its
cooldown facts survive in the store. -/
theorem processRules_no_refire {R : String} {T : Int} {M : Nat} (hT : T ≠ 0)
    {now : Int} (hnow : now < T + (M : Int) * 60 * 1000) (hour : Nat)
    (ms : Option MotionState) (ai : String → Option String) :
    ∀ (todo store : List AlertRule) (fired : List String),
      (∀ r ∈ todo, r.id = R → r.lastTriggered = some T ∧ r.cooldownMinutes = M) →
      (∀ r ∈ store, r.id = R → r.lastTriggered = some T ∧ r.cooldownMinutes = M) →
      R ∉ fired →
      (∀ r ∈ (processRules now hour ms ai todo store fired).1, r.id = R →
        r.lastTriggered = some T ∧ r.cooldownMinutes = M) ∧
      R ∉ (processRules now hour ms ai todo store fired).2 := by
  intro todo
  induction todo with
  | nil =>
    intro store fired _ h2 h3
    exact ⟨h2, h3⟩
  | cons r rest ih =>
    intro store fired h1 h2 h3
    have h1rest : ∀ x ∈ rest, x.id = R → x.lastTriggered = some T ∧ x.cooldownMinutes = M :=
      fun x hx => h1 x (List.mem_cons_of_mem _ hx)
    by_cases he : (!r.enabled) = true
    · simpa [processRules, he] using ih store fired h1rest h2 h3
    · have he' : (!r.enabled) = false := by simpa using he
      by_cases hfire : evaluateRule r now hour ms (ai r.id) = true
      · have hrR : r.id ≠ R := by
          intro hEq
          obtain ⟨hl, hm⟩ := h1 r (List.mem_cons_self _ _) hEq
          have hblocked := evaluateRule_blocked hl hT hm hnow hour ms (ai r.id)
          rw [hfire] at hblocked
          exact Bool.noConfusion hblocked
        have hstore' := updateAlertRule_keeps hrR
          (f := fun x => { x with lastTriggered := some now }) (fun x => rfl) store h2
        have hfired' : R ∉ fired ++ [r.id] := by
          intro hm
          rcases List.mem_append.mp hm with hm | hm
          · exact h3 hm
          · rw [List.mem_singleton] at hm
            exact hrR hm.symm
        simpa [processRules, he', hfire, triggerAlert] using
          ih (triggerAlert store r now) (fired ++ [r.id]) h1rest
            (by simpa [triggerAlert] using hstore') hfired'
      · have hfire' : evaluateRule r now hour ms (ai r.id) = false := by simpa using hfire
        simpa [processRules, he', hfire'] using ih store fired h1rest h2 h3

/-- One motion event cannot re-fire a rule id whose cooldown is
running, and the cooldown facts survive the event. -/
theorem handleMotionEvent_no_refire {R : String} {T : Int} {M : Nat} (hT : T ≠ 0)
    (s : AlertState) (cam : String) {now : Int}
    (hnow : now < T + (M : Int) * 60 * 1000) (hour : Nat) (ai : String → Option String)
    (hInv : ∀ r ∈ s.rules, r.id = R → r.lastTriggered = some T ∧ r.cooldownMinutes = M) :
    (∀ r ∈ (handleMotionEvent s cam now hour ai).1.rules, r.id = R →
      r.lastTriggered = some T ∧ r.cooldownMinutes = M) ∧
    R ∉ (handleMotionEvent s cam now hour ai).2 := by
  have hfiltered : ∀ r ∈ getAlertRulesByCamera s.rules cam, r.id = R →
      r.lastTriggered = some T ∧ r.cooldownMinutes = M := by
    intro r hr
    exact hInv r (List.mem_filter.mp hr).1
  have h := processRules_no_refire hT hnow hour
    (mapGet (s.motionStates.map (fun p =>
      if p.1 == cam then (p.1, { p.2 with lastMotion := now, isActive := true }) else p)) cam)
    ai (getAlertRulesByCamera s.rules cam) s.rules []
    hfiltered hInv (by simp)
  simpa [handleMotionEvent] using h

/-- C4 amended: for every rule id `R` whose stored rules carry
`lastTriggered = T` with `T ≠ 0` and `cooldownMinutes = M`, no motion
event arriving before `T + M` minutes fires `R`, however many events
arrive.  (The restriction `T ≠ 0` is forced by the code: JavaScript
truthiness makes `lastTriggered = 0` count as never-fired, so a firing
recorded at epoch timestamp 0 does not start a cooldown.) -/
theorem cooldown_blocks_reevaluation (s : AlertState) (R : String) (T : Int) (M : Nat)
    (evs : List MotionEvent)
    (hInv : ∀ r ∈ s.rules, r.id = R → r.lastTriggered = some T ∧ r.cooldownMinutes = M)
    (hT : T ≠ 0)
    (hevs : ∀ e ∈ evs, e.now < T + (M : Int) * 60 * 1000) :
    R ∉ (runEvents s evs).2 := by
  induction evs generalizing s with
  | nil => simp [runEvents]
  | cons e rest ih =>
    have he : e.now < T + (M : Int) * 60 * 1000 := hevs e (List.mem_cons_self _ _)
    have h := handleMotionEvent_no_refire hT s e.camera he e.hour e.ai hInv
    have hrest := ih (handleMotionEvent s e.camera e.now e.hour e.ai).1 h.1
      (fun x hx => hevs x (List.mem_cons_of_mem _ hx))
    intro hmem
    simp only [runEvents] at hmem
    rcases List.mem_append.mp hmem with hm | hm
    · exact h.2 hm
    · exact hrest hm

/-- Witness for C4's amended theorem: a rule last fired at T = 5 ms
with a 60 min cooldown does not fire on a motion event at 6 ms. -/
theorem cooldown_blocks_reevaluation_witness :
    "r1" ∉ (runEvents cooldownWitnessState [camEventAt 6]).2 := by
  exact cooldown_blocks_reevaluation cooldownWitnessState
    "r1" 5 60 [camEventAt 6] (by decide) (by decide) (by decide)

/-- C4 counterexample: the claim fails at firing time T = 0.  Starting
from a never-fired zero-idle rule with a 60 min cooldown on a tracked
camera, a motion event at time 0 fires the rule (recording
`lastTriggered = 0`), and a second event at time 1 ms — far inside the
cooldown window — fires it again, because the truthiness test skips
the cooldown check when `lastTriggered` is 0. -/
theorem cooldown_epoch_zero_cex :
    ((runEvents zeroIdleState [camEventAt 0]).1.rules.map (fun r => r.lastTriggered))
        = [some 0] ∧
    (runEvents zeroIdleState [camEventAt 0, camEventAt 1]).2 = ["r1", "r1"] := by
  exact ⟨rfl, rfl⟩

end RingCamera
